import Mathlib

/-!
Verification of the MoodBoard repository's two text-analysis tools:
`src/tools/a11y-check/index.py` (heuristic accessibility checker) and
`src/tools/hig-advisor/index.py` (guideline matcher).  Strings are
embedded as `List Char`; the Python regular expressions used by the code
are embedded as explicit matchers over character lists.  Character
classes (`\s`, `\w`, `str.isdigit`, `str.lower`) are modelled on their
ASCII behaviour, which is exhaustive for every construct the code looks
for (all patterns and keywords are ASCII).
-/

namespace MoodBoard

/-- Python's `\s` class / `str.strip` whitespace, ASCII part. -/
def isSpaceChar (c : Char) : Bool :=
  c == ' ' || c == '\t' || c == '\n' || c == '\r' || c == '\x0b' || c == '\x0c'

/-- Python's `\w` class (word character), ASCII part. -/
def isWordChar (c : Char) : Bool :=
  c.isAlphanum || c == '_'

/-- Does `s` start with the literal character list `p`? -/
def listStartsWith : List Char → List Char → Bool
  | [], _ => true
  | _ :: _, [] => false
  | p :: ps, c :: cs => p == c && listStartsWith ps cs

/-- Greedy `\s*`: drop leading whitespace.  (Backtracking never helps the
patterns below, whose next token is a non-space literal.) -/
def dropSpaces : List Char → List Char
  | [] => []
  | c :: cs => if isSpaceChar c then dropSpaces cs else c :: cs

/-- Is the first character of `s` exactly `c`? -/
def headIs (c : Char) : List Char → Bool
  | [] => false
  | x :: _ => x == c

/-- `re.search`: try the prefix matcher `m` at every position (suffix),
including the empty suffix at the end of the string. -/
def searchAux (m : List Char → Bool) : List Char → Bool
  | [] => m []
  | c :: cs => m (c :: cs) || searchAux m cs

/-- `re.search` for patterns that inspect the character before the match
(word boundaries): `m` receives the previous character (none at the start
of the string) and the suffix at the current position. -/
def searchWB (m : Option Char → List Char → Bool) : Option Char → List Char → Bool
  | prev, [] => m prev []
  | prev, c :: cs => m prev (c :: cs) || searchWB m (some c) cs

/-- `\b` before a word character: holds when there is no previous
character or the previous character is not a word character. -/
def noWordCharBefore : Option Char → Bool
  | none => true
  | some c => !isWordChar c

/-- `\b` after a word character: the rest of the string is empty or does
not begin with a word character. -/
def noWordCharAt : List Char → Bool
  | [] => true
  | c :: _ => !isWordChar c

/-- Prefix matcher for `LIT\s*\(`: the literal, optional whitespace, an
opening parenthesis. -/
def matchCallAt (lit : List Char) (s : List Char) : Bool :=
  listStartsWith lit s && headIs '(' (dropSpaces (s.drop lit.length))

/-- Substring search (Python's `needle in haystack`). -/
def containsSub (needle s : List Char) : Bool :=
  searchAux (listStartsWith needle) s

/-- `str.lower`, ASCII case mapping. -/
def lowerList (s : List Char) : List Char :=
  s.map Char.toLower

/-! ## a11y-check: the five heuristic predicates of `check_accessibility` -/

/-- Check 1 trigger: `re.search(r'Image\s*\(', content)` (nonempty
`re.findall` is equivalent to a successful search). -/
def hasImageElem (s : List Char) : Bool :=
  searchAux (matchCallAt "Image".toList) s

/-- Prefix matcher for `\.accessibility\s*\(\s*label:`. -/
def matchA11yLabelArgAt (s : List Char) : Bool :=
  listStartsWith ".accessibility".toList s &&
    (let r := dropSpaces (s.drop 14)
     headIs '(' r && listStartsWith "label:".toList (dropSpaces (r.drop 1)))

/-- Check 1 suppressor: `\.accessibilityLabel\s*\(` or
`\.accessibility\s*\(\s*label:`. -/
def hasImageLabel (s : List Char) : Bool :=
  searchAux (matchCallAt ".accessibilityLabel".toList) s ||
    searchAux matchA11yLabelArgAt s

/-- Check 2 trigger: `re.search(r'Button\s*\(', content)`. -/
def hasButtonElem (s : List Char) : Bool :=
  searchAux (matchCallAt "Button".toList) s

/-- Check 2 suppressor: `'accessibility' in content.lower()`. -/
def hasAccessibilityWord (s : List Char) : Bool :=
  containsSub "accessibility".toList (lowerList s)

/-- Check 3: `re.search(r'\bText\s*\(', content)`. -/
def hasTextElem (s : List Char) : Bool :=
  searchWB (fun prev t => noWordCharBefore prev && matchCallAt "Text".toList t) none s

/-- Check 3: `re.search(r'\bLabel\s*\(', content)`. -/
def hasLabelElem (s : List Char) : Bool :=
  searchWB (fun prev t => noWordCharBefore prev && matchCallAt "Label".toList t) none s

/-- Check 4 trigger: `re.search(r'\.onTapGesture|\.gesture\(', content)`. -/
def hasGestureElem (s : List Char) : Bool :=
  searchAux (fun t => listStartsWith ".onTapGesture".toList t ||
    listStartsWith ".gesture(".toList t) s

/-- Check 4 suppressor: `re.search(r'\.accessibilityAction\(', content)`. -/
def hasA11yAction (s : List Char) : Bool :=
  searchAux (listStartsWith ".accessibilityAction(".toList) s

/-- Check 5 trigger list: `['color:', 'foregroundColor', 'background(Color']`. -/
def color_only_indicators : List (List Char) :=
  ["color:".toList, "foregroundColor".toList, "background(Color".toList]

/-- Check 5 trigger: `any(indicator in content for indicator in color_only_indicators)`. -/
def hasColorIndicator (s : List Char) : Bool :=
  color_only_indicators.any (fun i => containsSub i s)

/-- Check 5 suppressor word set of `\b(Image|SF|Symbol|Circle|Rectangle|shape)\b`. -/
def shapeWords : List (List Char) :=
  ["Image".toList, "SF".toList, "Symbol".toList, "Circle".toList,
   "Rectangle".toList, "shape".toList]

/-- Check 5 suppressor: `re.search(r'\b(Image|SF|Symbol|Circle|Rectangle|shape)\b', content)`. -/
def hasShapesOrIcons (s : List Char) : Bool :=
  searchWB (fun prev t => noWordCharBefore prev &&
    shapeWords.any (fun w => listStartsWith w t && noWordCharAt (t.drop w.length))) none s

/-! ## a11y-check: messages and `check_accessibility` -/

def msgUnlabeledImages : String :=
  "🚨 Images detected without .accessibilityLabel()\n   → Add descriptive labels for screen readers"

def msgUnlabeledButtons : String :=
  "⚠️  Buttons detected without accessibility modifiers\n   → Consider adding .accessibilityLabel() or .accessibilityHint()"

def msgNoText : String :=
  "🚨 No Text() elements found in view\n   → Screen readers may have no content to announce"

def msgGestures : String :=
  "⚠️  Custom gestures detected without .accessibilityAction()\n   → Make gestures accessible via VoiceOver"

def msgColorOnly : String :=
  "⚠️  Color usage detected\n   → Ensure information is not conveyed by color alone"

/-- Check 1: images without accessibility labels (Issue). -/
def check1 (content : List Char) : List String :=
  if hasImageElem content && !hasImageLabel content then [msgUnlabeledImages] else []

/-- Check 2: buttons without accessibility context (Warning). -/
def check2 (content : List Char) : List String :=
  if hasButtonElem content && !hasAccessibilityWord content then [msgUnlabeledButtons] else []

/-- Check 3: no Text/Label elements and more than 100 characters (Issue). -/
def check3 (content : List Char) : List String :=
  if !hasTextElem content && !hasLabelElem content && decide (100 < content.length) then
    [msgNoText]
  else []

/-- Check 4: custom gestures without accessibility actions (Warning). -/
def check4 (content : List Char) : List String :=
  if hasGestureElem content && !hasA11yAction content then [msgGestures] else []

/-- Check 5: color-only information risk (Warning). -/
def check5 (content : List Char) : List String :=
  if hasColorIndicator content && !hasShapesOrIcons content then [msgColorOnly] else []

/-- `check_accessibility(content)`: the `(issues, warnings)` pair, issues
appended in check order 1 then 3, warnings in check order 2, 4, 5. -/
def check_accessibility (content : List Char) : List String × List String :=
  (check1 content ++ check3 content,
   check2 content ++ check4 content ++ check5 content)

/-! ## hig-advisor: `load_guides` -/

/-- Does `s` end with the literal `suf`? -/
def listEndsWith (suf s : List Char) : Bool :=
  listStartsWith suf.reverse s.reverse

/-- The document-markup extension looked for by `glob("*.md")`. -/
def mdToken : List Char := ['.', 'm', 'd']

/-- Which file names `glob.glob(os.path.join(guides_dir, "*.md"))`
lists: the name ends in `.md`, and — because `*` in a glob pattern
never matches a leading dot — the name does not start with `.`
(hidden files, including a bare `.md`, are never listed). -/
def globMdMatch (name : List Char) : Bool :=
  !headIs '.' name && listEndsWith mdToken name

/-- Python's `filename.replace(".md", "")`: delete every (non-overlapping,
leftmost-first) occurrence of `.md`. -/
def replaceAllMd : List Char → List Char
  | '.' :: 'm' :: 'd' :: rest => replaceAllMd rest
  | c :: cs => c :: replaceAllMd cs
  | [] => []

/-- The in-memory guide corpus: the `guides` dict, kept as the list of
inserts in load order; a lookup takes the last insert for a key
(Python dict overwrite semantics). -/
abbrev Guides : Type := List (List Char × List Char)

/-- `guide_name in guides`. -/
def guidesHas (guides : Guides) (name : List Char) : Bool :=
  guides.any (fun p => p.1 == name)

/-- `guides[guide_name]` (with `none` for a missing key): the most
recently inserted value for the key. -/
def guidesFind (guides : Guides) (name : List Char) : Option (List Char) :=
  (guides.reverse.find? (fun p => p.1 == name)).map (fun p => p.2)

/-- One file of the guides directory: its base name and the result of
reading it (`none` when the read raises and the file is skipped). -/
abbrev DirEntry : Type := List Char × Option (List Char)

/-- `load_guides(guides_dir)`, over the directory listing: keep the
files the `*.md` glob lists, skip the ones whose read failed, and store
each successful read under `filename.replace(".md", "")`. -/
def load_guides (entries : List DirEntry) : Guides :=
  entries.filterMap (fun e =>
    if globMdMatch e.1 then e.2.map (fun c => (replaceAllMd e.1, c)) else none)

/-- Outcome of `main`'s load phase: `sys.exit(1)` or the loaded corpus. -/
inductive LoadOutcome : Type
  | exitOne : LoadOutcome
  | ok : Guides → LoadOutcome
deriving DecidableEq

/-- `main`'s load phase: exit 1 when the guides directory does not
exist; otherwise load, and exit 1 when the corpus came out empty. -/
def mainLoadPhase (dirExists : Bool) (entries : List DirEntry) : LoadOutcome :=
  if !dirExists then .exitOne
  else if (load_guides entries).isEmpty then .exitOne
  else .ok (load_guides entries)

/-! ## hig-advisor: `analyze_content` -/

def navName : List Char := "navigation".toList

def actName : List Char := "actions".toList

/-- `keywords_map['navigation']`. -/
def navigationKeywords : List (List Char) :=
  ["navigation".toList, "navigationlink".toList, "navigationstack".toList, "tabview".toList]

/-- `keywords_map['actions']`. -/
def actionsKeywords : List (List Char) :=
  ["button".toList, "action".toList, "tap".toList, "gesture".toList, "onclick".toList]

/-- The `keywords_map` dict, in insertion order. -/
def keywords_map : List (List Char × List (List Char)) :=
  [(navName, navigationKeywords), (actName, actionsKeywords)]

/-- All topic keywords of the table. -/
def allKeywords : List (List Char) :=
  navigationKeywords ++ actionsKeywords

/-- `any(keyword in content_lower for keyword in keywords)`. -/
def topicHit (contentLower : List Char) (kws : List (List Char)) : Bool :=
  kws.any (fun k => containsSub k contentLower)

/-- The topics whose keyword set hits the lowercased content, before the
fallback, in `keywords_map` order. -/
def topicBase (content : List Char) : List (List Char) :=
  (keywords_map.filter (fun p => topicHit (lowerList content) p.2)).map (fun p => p.1)

/-- `matched_guides` after the fallback.  The Python code holds this as
a `set`; its iteration order is not observable by any property proved
here, and is modelled as `keywords_map` insertion order. -/
def matchedTopics (content : List Char) : List (List Char) :=
  if (topicBase content).isEmpty then [navName, actName] else topicBase content

/-- `line.split('\n')` for the whole document. -/
def splitOnNl : List Char → List (List Char)
  | [] => [[]]
  | c :: cs =>
    if c == '\n' then [] :: splitOnNl cs
    else
      match splitOnNl cs with
      | [] => [[c]]
      | l :: ls => (c :: l) :: ls

/-- `line.strip()`. -/
def trim (s : List Char) : List Char :=
  ((s.dropWhile isSpaceChar).reverse.dropWhile isSpaceChar).reverse

/-- The key-point test applied to a stripped line:
`stripped.startswith(('-', '*', '•')) or (len(stripped) > 2 and
stripped[0].isdigit() and stripped[1] in '.):')`. -/
def isPoint (stripped : List Char) : Bool :=
  match stripped with
  | [] => false
  | c :: rest =>
    (c == '-' || c == '*' || c == '•') ||
      (decide (2 < (c :: rest).length) && c.isDigit &&
        (match rest with
         | [] => false
         | d :: _ => d == '.' || d == ')' || d == ':'))

/-- The `points` accumulation loop over the document's lines. -/
def collectPoints (lines : List (List Char)) : List (List Char) :=
  lines.foldl (fun points line =>
    let stripped := trim line
    if isPoint stripped then points ++ [stripped] else points) []

/-- The lines extracted from one guide document: the collected points,
limited to the first 3 (`points[:3]`). -/
def extractPoints (guideContent : List Char) : List (List Char) :=
  (collectPoints (splitOnNl guideContent)).take 3

/-- `"🔍 No specific keywords detected. Providing general HIG recommendations:"`. -/
def generalNotice : String :=
  "🔍 No specific keywords detected. Providing general HIG recommendations:"

/-- The per-document header `f"\n📘 From {guide_name}.md:"`. -/
def headerFor (name : List Char) : String :=
  "\n📘 From " ++ String.mk name ++ ".md:"

/-- One extracted line as a recommendation entry, `f"  {point}"`. -/
def pointLine (p : List Char) : String :=
  "  " ++ String.mk p

/-- The recommendation entries contributed by one matched topic: nothing
when no loaded document has that name, else the header followed by the
extracted lines. -/
def topicBlock (guides : Guides) (name : List Char) : List String :=
  match guidesFind guides name with
  | some gc => headerFor name :: (extractPoints gc).map pointLine
  | none => []

/-- `analyze_content(content, guides)`: the assembled recommendation
list (notice first when the fallback fired, then each matched topic's
block). -/
def analyze_content (content : List Char) (guides : Guides) : List String :=
  (if (topicBase content).isEmpty then [generalNotice] else []) ++
    ((matchedTopics content).map (topicBlock guides)).flatten

/-- The entries `main` prints: `recommendations[:5]`. -/
def mainRecommendations (content : List Char) (guides : Guides) : List String :=
  (analyze_content content guides).take 5

/-! ## Claim-side definitions

Definitions written from the words of a claim (not from the code), used
to compare the claimed behaviour against the embedded code. -/

/-- The two accessibility-label constructs named by the spec, as literal
fragments: a `.accessibilityLabel(` modifier call and an
`.accessibility(label:` call. -/
def labelConstructs : List (List Char) :=
  [".accessibilityLabel(".toList, ".accessibility(label:".toList]

/-- Claim C2's line test, word for word: after trimming, the line starts
with `-`, `*`, or `•`, or it starts with a digit immediately followed by
one of `.`, `)`, `:` — with no condition on the line's length. -/
def claimKeepLine (stripped : List Char) : Bool :=
  match stripped with
  | [] => false
  | c :: rest =>
    (c == '-' || c == '*' || c == '•') ||
      (c.isDigit &&
        (match rest with
         | [] => false
         | d :: _ => d == '.' || d == ')' || d == ':'))

/-- The amended C2 line test: as claimed, plus the requirement (present
in the code) that the trimmed line has length at least 3 for the
numbered-marker form. -/
def specKeepLine (stripped : List Char) : Bool :=
  match stripped with
  | [] => false
  | c :: rest =>
    (c == '-' || c == '*' || c == '•') ||
      (decide (3 ≤ (c :: rest).length) && c.isDigit &&
        (match rest with
         | [] => false
         | d :: _ => d == '.' || d == ')' || d == ':'))

/-- Claim C8's stored name, word for word: the filename minus its
(three-character `.md`) extension. -/
def claimStoredName (filename : List Char) : List Char :=
  filename.take (filename.length - 3)

end MoodBoard

namespace MoodBoard

/-! ## Helper lemmas -/

/-- A match somewhere in `s` is still found after prepending `pre`. -/
theorem searchAux_append (m : List Char → Bool) (pre s : List Char)
    (h : searchAux m s = true) : searchAux m (pre ++ s) = true := by
  induction pre with
  | nil => simpa using h
  | cons c cs ih => simp [searchAux, ih]

/-- A match at the very first position is a match. -/
theorem searchAux_of_head (m : List Char → Bool) (s : List Char)
    (h : m s = true) : searchAux m s = true := by
  cases s with
  | nil => simpa [searchAux] using h
  | cons c cs => simp [searchAux, h]

/-- The pattern `\.accessibilityLabel\s*\(` matches at the head of any
string starting with the literal `.accessibilityLabel(`. -/
theorem matchCallAt_label_self (post : List Char) :
    matchCallAt ".accessibilityLabel".toList (".accessibilityLabel(".toList ++ post) = true := rfl

/-- The pattern `\.accessibility\s*\(\s*label:` matches at the head of
any string starting with the literal `.accessibility(label:`. -/
theorem matchA11yLabelArgAt_self (post : List Char) :
    matchA11yLabelArgAt (".accessibility(label:".toList ++ post) = true := rfl

/-- Inserting either label construct anywhere makes `hasImageLabel` true. -/
theorem hasImageLabel_insert (lbl : List Char) (h : lbl ∈ labelConstructs)
    (pre post : List Char) : hasImageLabel (pre ++ lbl ++ post) = true := by
  simp only [labelConstructs, List.mem_cons, List.not_mem_nil, or_false] at h
  unfold hasImageLabel
  rcases h with h | h <;> subst h <;> rw [List.append_assoc]
  · rw [searchAux_append _ pre _
      (searchAux_of_head _ _ (matchCallAt_label_self post))]
    simp
  · rw [searchAux_append _ pre _
      (searchAux_of_head _ _ (matchA11yLabelArgAt_self post))]
    simp

/-- The no-text message is never produced by check 1. -/
theorem msgNoText_notin_check1 (content : List Char) :
    msgNoText ∉ check1 content := by
  unfold check1
  split <;> decide

/-- The unlabeled-images message is never produced by check 3. -/
theorem msgUnlabeledImages_notin_check3 (content : List Char) :
    msgUnlabeledImages ∉ check3 content := by
  unfold check3
  split <;> decide

/-- The unlabeled-buttons message is never produced by check 4. -/
theorem msgUnlabeledButtons_notin_check4 (content : List Char) :
    msgUnlabeledButtons ∉ check4 content := by
  unfold check4
  split <;> decide

/-- The unlabeled-buttons message is never produced by check 5. -/
theorem msgUnlabeledButtons_notin_check5 (content : List Char) :
    msgUnlabeledButtons ∉ check5 content := by
  unfold check5
  split <;> decide

/-- The point-accumulating loop is a filter over the stripped lines. -/
theorem collectPoints_eq (lines : List (List Char)) :
    collectPoints lines = (lines.map trim).filter isPoint := by
  suffices h : ∀ acc, lines.foldl (fun points line =>
      let stripped := trim line
      if isPoint stripped then points ++ [stripped] else points) acc
      = acc ++ (lines.map trim).filter isPoint by
    simpa using h []
  induction lines with
  | nil => intro acc; simp
  | cons l ls ih =>
    intro acc
    cases h : isPoint (trim l) <;> simp [List.filter_cons, h, ih]

/-- The embedded line test agrees with the amended claim's line test. -/
theorem isPoint_eq_specKeepLine : isPoint = specKeepLine := by
  funext s
  cases s with
  | nil => rfl
  | cons c rest => rfl

/-- A guide lookup misses exactly when no insert used the name. -/
theorem guidesFind_eq_none_iff (guides : Guides) (name : List Char) :
    guidesFind guides name = none ↔ guidesHas guides name = false := by
  simp [guidesFind, guidesHas, List.find?_eq_none, List.any_eq_true]

/-- A topic contributes no entries exactly when no loaded document has
its name. -/
theorem topicBlock_eq_nil_iff (guides : Guides) (name : List Char) :
    topicBlock guides name = [] ↔ guidesHas guides name = false := by
  rw [← guidesFind_eq_none_iff]
  unfold topicBlock
  cases h : guidesFind guides name <;> simp [h]

/-- A directory entry whose read failed leaves the loaded corpus as if
the entry were absent. -/
theorem load_guides_skip (pre post : List DirEntry) (name : List Char) :
    load_guides (pre ++ (name, none) :: post) = load_guides (pre ++ post) := by
  unfold load_guides
  rw [List.filterMap_append, List.filterMap_append, List.filterMap_cons]
  cases h : globMdMatch name <;> simp [h]

/-! ## Claim theorems -/

/-- C1: any text containing an image instantiation and no label
construct gets exactly one unlabeled-images Issue, and inserting either
label construct anywhere in such a text removes that Issue. -/
theorem c1_unlabeled_images (content : List Char)
    (h1 : hasImageElem content = true) (h2 : hasImageLabel content = false) :
    (check_accessibility content).1.count msgUnlabeledImages = 1 ∧
      ∀ lbl ∈ labelConstructs, ∀ pre post, content = pre ++ post →
        msgUnlabeledImages ∉ (check_accessibility (pre ++ lbl ++ post)).1 := by
  constructor
  · have hcnt : (check3 content).count msgUnlabeledImages = 0 :=
      List.count_eq_zero.mpr (msgUnlabeledImages_notin_check3 content)
    simp [check_accessibility, check1, h1, h2, List.count_append, hcnt]
  · intro lbl hl pre post _
    have hlab := hasImageLabel_insert lbl hl pre post
    rw [List.append_assoc] at hlab
    simp [check_accessibility, check1, hlab,
      msgUnlabeledImages_notin_check3 (pre ++ (lbl ++ post))]

/-- C1 witness: the check at the concrete text `Image("photo")`. -/
theorem c1_unlabeled_images_witness :
    (check_accessibility ("Image(\"photo\")".toList)).1.count msgUnlabeledImages = 1 :=
  (c1_unlabeled_images ("Image(\"photo\")".toList) (by decide) (by decide)).1

/-- C2 (amended): a line of a guide document is kept exactly when its
trimmed form starts with a bullet, or has length at least 3 and starts
with a digit immediately followed by one of the three numbered-list
marker characters; at most the first 3 such lines are kept, in document
order. -/
theorem c2_kept_lines (gc : List Char) :
    extractPoints gc = (((splitOnNl gc).map trim).filter specKeepLine).take 3 := by
  rw [extractPoints, collectPoints_eq, isPoint_eq_specKeepLine]

/-- C2 counterexample: the document consisting of the single line `1.`
refutes the claim as stated, since the code requires the trimmed line to
have more than 2 characters and so drops it. -/
theorem c2_kept_lines_cex : ¬ (extractPoints ('1' :: '.' :: []) =
    (((splitOnNl ('1' :: '.' :: [])).map trim).filter claimKeepLine).take 3) := by
  decide

/-- C3: the rendered recommendation list never exceeds 5 entries and is
the 5-entry truncation of the assembled list. -/
theorem c3_cap (content : List Char) (guides : Guides) :
    (mainRecommendations content guides).length ≤ 5 ∧
      mainRecommendations content guides = (analyze_content content guides).take 5 := by
  refine ⟨?_, rfl⟩
  simp [mainRecommendations, List.length_take]

/-- C4: with neither a Text nor a Label construct present, no no-text
Issue is produced at length up to 100, and the Issue is produced at
length 101 or more. -/
theorem c4_no_text (content : List Char)
    (h1 : hasTextElem content = false) (h2 : hasLabelElem content = false) :
    (content.length ≤ 100 → msgNoText ∉ (check_accessibility content).1) ∧
    (101 ≤ content.length → msgNoText ∈ (check_accessibility content).1) := by
  constructor
  · intro hlen
    have h3 : ¬ (100 < content.length) := by omega
    simp [check_accessibility, check3, h1, h2, h3, msgNoText_notin_check1 content]
  · intro hlen
    have h3 : 100 < content.length := by omega
    simp [check_accessibility, check3, h1, h2, h3]

/-- C4 witness: 101 copies of the letter a trigger the Issue. -/
theorem c4_no_text_witness :
    msgNoText ∈ (check_accessibility (List.replicate 101 'a')).1 :=
  (c4_no_text (List.replicate 101 'a') (by decide) (by decide)).2 (by decide)

/-- C5: the unlabeled-controls Warning is emitted exactly when the text
contains a button instantiation and the case-insensitive word
accessibility occurs nowhere in it. -/
theorem c5_buttons (content : List Char) :
    msgUnlabeledButtons ∈ (check_accessibility content).2 ↔
      (hasButtonElem content = true ∧ hasAccessibilityWord content = false) := by
  cases hb : hasButtonElem content <;> cases ha : hasAccessibilityWord content <;>
    simp [check_accessibility, check2, hb, ha,
      msgUnlabeledButtons_notin_check4 content, msgUnlabeledButtons_notin_check5 content]

/-- C6 (amended): when none of the nine fixed topic keywords occurs in
the lowercased text, the matched topic set is exactly navigation and
actions and the general-advice notice heads the recommendations; the
matched topic set is never empty. -/
theorem c6_fallback :
    (∀ content, (∀ k ∈ allKeywords, containsSub k (lowerList content) = false) →
      matchedTopics content = [navName, actName] ∧
        ∀ guides, (analyze_content content guides).head? = some generalNotice) ∧
    ∀ content, matchedTopics content ≠ [] := by
  constructor
  · intro content h
    have hn : topicHit (lowerList content) navigationKeywords = false := by
      simp [topicHit, navigationKeywords]
      exact ⟨h _ (by decide), h _ (by decide), h _ (by decide), h _ (by decide)⟩
    have ha : topicHit (lowerList content) actionsKeywords = false := by
      simp [topicHit, actionsKeywords]
      exact ⟨h _ (by decide), h _ (by decide), h _ (by decide), h _ (by decide), h _ (by decide)⟩
    have hb : topicBase content = [] := by
      simp [topicBase, keywords_map, List.filter, hn, ha]
    refine ⟨by simp [matchedTopics, hb], fun guides => ?_⟩
    simp [analyze_content, hb]
  · intro content
    unfold matchedTopics
    cases h : (topicBase content).isEmpty <;> simp [h]
    exact List.isEmpty_eq_false.mp h

/-- C6 counterexample: the fixed keyword table does not have ten
keywords (it has nine). -/
theorem c6_fallback_cex : ¬ (allKeywords.length = 10) := by decide

/-- C7: the load phase exits with code 1 exactly when the guides
directory is missing or nothing loaded, and an entry whose read failed
is skipped without changing the outcome. -/
theorem c7_exit_conditions (dirExists : Bool) (entries : List DirEntry) :
    (mainLoadPhase dirExists entries = .exitOne ↔
      (dirExists = false ∨ load_guides entries = [])) ∧
    ∀ pre post name, entries = pre ++ post →
      mainLoadPhase dirExists (pre ++ (name, none) :: post) = mainLoadPhase dirExists entries := by
  constructor
  · cases dirExists with
    | false => simp [mainLoadPhase]
    | true =>
      cases h : (load_guides entries).isEmpty with
      | true => simp [mainLoadPhase, h, List.isEmpty_iff.mp h]
      | false =>
        simp [mainLoadPhase, h]
        exact List.isEmpty_eq_false.mp h
  · intro pre post name hsplit
    subst hsplit
    rw [mainLoadPhase, mainLoadPhase, load_guides_skip]

/-- C8 (amended): a directory entry the `*.md` glob lists (its name
ends in the markup extension and is not dot-initial) whose read
succeeds is stored under the filename with every occurrence of the
extension text removed. -/
theorem c8_stored_name (entries : List DirEntry) (filename content : List Char)
    (h1 : (filename, some content) ∈ entries)
    (h2 : globMdMatch filename = true) :
    (replaceAllMd filename, content) ∈ load_guides entries := by
  unfold load_guides
  rw [List.mem_filterMap]
  exact ⟨(filename, some content), h1, by simp [h2]⟩

/-- C8 witness: the file guide.md is stored under the name guide. -/
theorem c8_stored_name_witness :
    (replaceAllMd "guide.md".toList, "text".toList) ∈
      load_guides [("guide.md".toList, some "text".toList)] :=
  c8_stored_name _ _ _ (by decide) (by decide)

/-- C8 counterexample: the file a.md.md is not stored under a.md (the
filename minus its extension) but under a. -/
theorem c8_stored_name_cex :
    guidesHas (load_guides [("a.md.md".toList, some ['x'])])
      (claimStoredName "a.md.md".toList) = false ∧
    guidesHas (load_guides [("a.md.md".toList, some ['x'])])
      (replaceAllMd "a.md.md".toList) = true := by
  decide

/-- C9: the classifier is total — it returns a pair of lists on every
input — and on the empty string both lists are empty. -/
theorem c9_total : check_accessibility [] = ([], []) ∧
    ∀ content, ∃ issues warnings, check_accessibility content = (issues, warnings) :=
  ⟨by decide, fun _ => ⟨_, _, rfl⟩⟩

/-- C10: the assembled recommendation list is empty exactly when some
topic keyword matched and no matched topic names a loaded document; when
no keyword matched the general-advice notice is the first entry. -/
theorem c10_empty_output (content : List Char) (guides : Guides) :
    (analyze_content content guides = [] ↔
      ((topicBase content).isEmpty = false ∧
        ∀ name ∈ matchedTopics content, guidesHas guides name = false)) ∧
    ((topicBase content).isEmpty = true →
      (analyze_content content guides).head? = some generalNotice) := by
  cases h : (topicBase content).isEmpty with
  | true =>
    refine ⟨by simp [analyze_content, h], fun _ => by simp [analyze_content, h]⟩
  | false =>
    refine ⟨?_, fun hc => by simp [h] at hc⟩
    simp only [analyze_content, h, if_neg Bool.false_ne_true, List.nil_append]
    rw [List.flatten_eq_nil_iff]
    constructor
    · intro hall
      refine ⟨trivial, fun name hname => ?_⟩
      exact (topicBlock_eq_nil_iff guides name).mp
        (hall _ (List.mem_map_of_mem (topicBlock guides) hname))
    · intro hall l hl
      rcases List.mem_map.mp hl with ⟨name, hname, rfl⟩
      exact (topicBlock_eq_nil_iff guides name).mpr (hall.2 name hname)

end MoodBoard
